import Mathlib

/-!
Shallow embedding of the pyGeoMagnetic core (src/IGRF12.py, src/apex.py,
src/coordinate.py) over the real numbers, together with theorems settling
the frozen claims about the repository.

Machine floats are modelled as exact reals; Python lists are modelled as
total functions with functional update; the coefficient file
`igrf12coeffs.txt` (read by `loadCoeffs`, external data not in the
repository sources) is modelled as an abstract table parameter `gh : Nat -> Real`.
-/

noncomputable section

open Real

/-- FACT = 180/pi, the degree/radian conversion constant of IGRF12.py and apex.py. -/
def FACT : ℝ := 180 / Real.pi

/-- Embedding of numpy's arctan2 (range (-pi, pi]; arctan2 0 0 = 0). -/
def arctan2 (y x : ℝ) : ℝ :=
  if 0 < x then Real.arctan (y / x)
  else if x < 0 then
    (if y < 0 then Real.arctan (y / x) - Real.pi else Real.arctan (y / x) + Real.pi)
  else
    (if 0 < y then Real.pi / 2 else if y < 0 then -(Real.pi / 2) else 0)

/-- coordinate.py geodetic2geocentric: WGS84 reduction from geodetic colatitude
(radians) and altitude to (geocentric colatitude, longitude correction, radius). -/
def geodetic2geocentric (theta alt : ℝ) : ℝ × ℝ × ℝ :=
  let ct := Real.cos theta
  let st := Real.sin theta
  let a2 : ℝ := 40680631.6
  let b2 : ℝ := 40408296.0
  let one := a2 * st * st
  let two := b2 * ct * ct
  let three := one + two
  let rho := Real.sqrt three
  let r := Real.sqrt (alt * (alt + 2.0 * rho) + (a2 * one + b2 * two) / three)
  let cd := (alt + rho) / r
  let sd := (a2 - b2) / rho * ct * st / r
  let ct2 := ct * cd - st * sd
  let st2 := st * cd + ct * sd
  (arctan2 st2 ct2, arctan2 sd cd, r)

/-- coordinate.py geocentric2cartesian. -/
def geocentric2cartesian (lat lon rho : ℝ) : ℝ × ℝ × ℝ :=
  (rho * Real.cos lat * Real.cos lon, rho * Real.cos lat * Real.sin lon, rho * Real.sin lat)

/-- coordinate.py cartesian2geocentric: returns (lat, lon, rho). -/
def cartesian2geocentric (x y z : ℝ) : ℝ × ℝ × ℝ :=
  (arctan2 z (Real.sqrt (x * x + y * y)), arctan2 y x, Real.sqrt (x * x + y * y + z * z))

/-- coordinate.py rotateVector: applies the fixed rotation matrix rows
[-sb*ca, -sa, -cb*ca; -sb*sa, ca, -cb*sa; cb, 0, -sb] to [north, east, down]. -/
def rotateVector (vec : ℝ × ℝ × ℝ) (alpha beta : ℝ) : ℝ × ℝ × ℝ :=
  let ca := Real.cos alpha
  let sa := Real.sin alpha
  let cb := Real.cos beta
  let sb := Real.sin beta
  (-sb * ca * vec.1 + -sa * vec.2.1 + -cb * ca * vec.2.2,
   -sb * sa * vec.1 + ca * vec.2.1 + -cb * sa * vec.2.2,
   cb * vec.1 + 0 * vec.2.1 + -sb * vec.2.2)

/-- apex.py northPole: first-order dipole pole from the degree-1 coefficients
(g10 = g[1][0], g11 = g[1][1], h11 = h[1][1]); the degree-1 lookup getCoeffs
itself lives in a module that is not part of the sources, so the coefficients
are taken as parameters. Returns (colat*FACT - 90, elong*FACT - 180). -/
def northPole (g10 g11 h11 : ℝ) : ℝ × ℝ :=
  let colat := Real.arccos (g10 / Real.sqrt (g10 ^ 2 + g11 ^ 2 + h11 ^ 2))
  let elong := arctan2 h11 g11
  (colat * FACT - 90, elong * FACT - 180)

/-- Modelled from the spec: the pole position the specification describes for
locateNorthPole, namely latitude = 90 degrees minus the dipole colatitude
(in degrees) and longitude = atan2(h11, g11) (in degrees). -/
def northPoleClaimed (g10 g11 h11 : ℝ) : ℝ × ℝ :=
  let colat := Real.arccos (g10 / Real.sqrt (g10 ^ 2 + g11 ^ 2 + h11 ^ 2))
  let elong := arctan2 h11 g11
  (90 - colat * FACT, elong * FACT)

/-- Result of the epoch-resolution block of igrf12syn (IGRF12.py lines 574-613):
interpolation weights t, tc, table offset ll (kept as a real, exactly as the
Python port keeps it as a float), truncated degree ceiling data nmx, nc, kmx. -/
structure EpochRes where
  t : ℝ
  tc : ℝ
  ll : ℝ
  nmx : ℕ
  nc : ℕ
  kmx : ℕ

/-- Epoch resolution of igrf12syn, transcribed from IGRF12.py lines 574-613.
Note the port keeps `ll = t` as a float (no int() truncation), so `t = t - one`
is identically zero; nc = nmx*(nmx+2) and kmx = (nmx+1)*(nmx+2)/2 are written
as the resulting constants. -/
def epochResolve (isv : ℕ) (date : ℝ) : EpochRes :=
  if 2015 ≤ date then
    let t := date - 2015
    let tc : ℝ := 1
    let t := if isv = 1 then 1 else t
    let tc := if isv = 1 then 0 else tc
    ⟨t, tc, 3060, 13, 195, 105⟩
  else
    let t := 0.2 * (date - 1900)
    let ll := t
    let one := ll
    let t := t - one
    if date < 1995 then
      let ll := (120 : ℝ) * ll
      let tc := 1 - t
      let t := if isv = 1 then 0.2 else t
      let tc := if isv = 1 then -0.2 else tc
      ⟨t, tc, ll, 10, 120, 66⟩
    else
      let ll2 := 0.2 * (date - 1995)
      let ll := (120 : ℝ) * 19 + 195 * ll2
      let tc := 1 - t
      let t := if isv = 1 then 0.2 else t
      let tc := if isv = 1 then -0.2 else tc
      ⟨t, tc, ll, 13, 195, 105⟩

/-- Modelled from the spec: the fractional position t of the epoch within its
bracketing pair of 5-year snapshots (spec section 4.4, step 1). -/
def specInterpWeight (date : ℝ) : ℝ :=
  (date - 1900) / 5 - (⌊(date - 1900) / 5⌋ : ℝ)

/-- Modelled from the spec: flattened-table offset of the lower bracketing
snapshot for a pre-1995 epoch (stride 120 per degree-10 snapshot). -/
def specLowerOffset (date : ℝ) : ℝ :=
  120 * (⌊(date - 1900) / 5⌋ : ℝ)

/-- State of the harmonic recurrence loop of igrf12syn (IGRF12.py lines 652-695):
accumulators x, y, z; counters l, m, n; running radius power rr and degree
values fn, gn; the Schmidt quasi-normalized function arrays p, q and the
longitude-harmonic arrays cl, sl (Python lists as total functions). -/
structure SynthState where
  x : ℝ
  y : ℝ
  z : ℝ
  l : ℕ
  m : ℕ
  n : ℕ
  rr : ℝ
  fn : ℝ
  gn : ℝ
  p : ℕ → ℝ
  q : ℕ → ℝ
  cl : ℕ → ℝ
  sl : ℕ → ℝ

/-- The east-component accumulator update of igrf12syn (IGRF12.py lines
683-686): divide the derivative term by st only when st is nonzero; at
st = 0 substitute the closed-form limit multiplying by ct instead. -/
def yAccum (y st ct one two clm slm fm pk qk : ℝ) : ℝ :=
  if st = 0 then y + (one * slm - two * clm) * qk * ct
  else y + (one * slm - two * clm) * fm * pk / st

/-- Coefficient-table index for Python's gh[int(a) - 1] (a is nonnegative for
all in-range dates, so int() truncation is the floor). -/
def ghIdx (a : ℝ) : ℕ := (⌊a⌋ - 1).toNat

/-- Coefficient-table index for Python's gh[int(a)]. -/
def ghIdx0 (a : ℝ) : ℕ := (⌊a⌋).toNat

/-- One iteration (loop variable k) of the harmonic recurrence of igrf12syn,
transcribed from IGRF12.py lines 652-695. When n < m the port only advances
the degree counters (the contribution is skipped for that k); when m = 0 the
port falls through into the m > 0 contribution after the m = 0 one. -/
def synthStep (gh : ℕ → ℝ) (t tc ll : ℝ) (nc : ℕ) (ct st ratio : ℝ)
    (s : SynthState) (k : ℕ) : SynthState :=
  if s.m ≤ s.n then
    let fm : ℝ := s.m
    let s1 :=
      if s.m ≠ s.n then
        let gmm : ℝ := (s.m : ℝ) * (s.m : ℝ)
        let one := Real.sqrt (s.fn * s.fn - gmm)
        let two := Real.sqrt (s.gn * s.gn - gmm) / one
        let three := (s.fn + s.gn) / one
        let i := k - s.n
        let j := i - s.n + 1
        { s with
          p := Function.update s.p (k - 1)
            (three * ct * s.p (i - 1) - two * s.p (j - 1)),
          q := Function.update s.q (k - 1)
            (three * (ct * s.q (i - 1) - st * s.p (i - 1)) - two * s.q (j - 1)) }
      else if k ≠ 3 then
        let one := Real.sqrt (1 - 0.5 / fm)
        let j := k - s.n - 1
        { s with
          p := Function.update s.p (k - 1) (one * st * s.p (j - 1)),
          q := Function.update s.q (k - 1)
            (one * (st * s.q (j - 1) + ct * s.p (j - 1))),
          cl := Function.update s.cl (s.m - 1)
            (s.cl (s.m - 2) * s.cl 0 - s.sl (s.m - 2) * s.sl 0),
          sl := Function.update s.sl (s.m - 1)
            (s.sl (s.m - 2) * s.cl 0 + s.cl (s.m - 2) * s.sl 0) }
      else s
    let lm : ℝ := ll + (s1.l : ℝ)
    let one2 := (tc * gh (ghIdx lm) + t * gh (ghIdx (lm + (nc : ℝ)))) * s1.rr
    let s2 :=
      if s1.m = 0 then
        { s1 with
          x := s1.x + one2 * s1.q (k - 1),
          z := s1.z - (s1.fn + 1) * one2 * s1.p (k - 1),
          l := s1.l + 1,
          m := s1.m + 1 }
      else s1
    let two2 := (tc * gh (ghIdx0 lm) + t * gh (ghIdx0 (lm + (nc : ℝ)))) * s2.rr
    let three2 := one2 * s2.cl (s2.m - 1) + two2 * s2.sl (s2.m - 1)
    { s2 with
      x := s2.x + three2 * s2.q (k - 1),
      y := yAccum s2.y st ct one2 two2 (s2.cl (s2.m - 1)) (s2.sl (s2.m - 1))
        fm (s2.p (k - 1)) (s2.q (k - 1)),
      z := s2.z - (s2.fn + 1) * three2 * s2.p (k - 1),
      l := s2.l + 2,
      m := s2.m + 1 }
  else
    { s with
      m := 1,
      n := s.n + 1,
      rr := s.rr * ratio,
      fn := ((s.n + 1 : ℕ) : ℝ),
      gn := (s.n : ℝ) }

/-- The three field components of the main branch of igrf12syn, IGRF12.py
lines 574-699: epoch resolution, coordinate preparation (with the WGS84
geodetic reduction when itype = 1), the harmonic recurrence over k in
range(2, kmx), and the frame restoration rotating (x, z) back through
(cd, sd). -/
def igrfXYZ (gh : ℕ → ℝ) (isv : ℕ) (date : ℝ) (itype : ℕ)
    (alt colat elong : ℝ) : ℝ × ℝ × ℝ :=
  let er := epochResolve isv date
  let ct0 := Real.cos (colat / FACT)
  let st0 := Real.sin (colat / FACT)
  let cl0 := Real.cos (elong / FACT)
  let sl0 := Real.sin (elong / FACT)
  let geo : ℝ × ℝ × ℝ × ℝ × ℝ :=
    if itype = 1 then
      let a2 : ℝ := 40680631.6
      let b2 : ℝ := 40408296.0
      let one := a2 * st0 * st0
      let two := b2 * ct0 * ct0
      let three := one + two
      let rho := Real.sqrt three
      let r := Real.sqrt (alt * (alt + 2.0 * rho) + (a2 * one + b2 * two) / three)
      let cd := (alt + rho) / r
      let sd := (a2 - b2) / rho * ct0 * st0 / r
      (r, ct0 * cd - st0 * sd, st0 * cd + ct0 * sd, cd, sd)
    else (alt, ct0, st0, 1, 0)
  let r := geo.1
  let ct := geo.2.1
  let st := geo.2.2.1
  let cd := geo.2.2.2.1
  let sd := geo.2.2.2.2
  let ratio := 6371.2 / r
  let s0 : SynthState :=
    { x := 0, y := 0, z := 0, l := 1, m := 1, n := 0,
      rr := ratio * ratio, fn := 0, gn := 0,
      p := fun i => if i = 0 then 1 else if i = 2 then st else 0,
      q := fun i => if i = 2 then ct else 0,
      cl := fun i => if i = 0 then cl0 else 0,
      sl := fun i => if i = 0 then sl0 else 0 }
  let sF := (List.range' 2 (er.kmx - 2)).foldl
    (synthStep gh er.t er.tc er.ll er.nc ct st ratio) s0
  let xr := sF.x * cd + sF.z * sd
  let zr := sF.z * cd - sF.x * sd
  (xr, sF.y, zr)

/-- The main (in-range) branch of igrf12syn: the three components of igrfXYZ
followed by f = sqrt(x*x + y*y + z*z) recomputed from them (line 700). -/
def igrfMain (gh : ℕ → ℝ) (isv : ℕ) (date : ℝ) (itype : ℕ)
    (alt colat elong : ℝ) : ℝ × ℝ × ℝ × ℝ :=
  let v := igrfXYZ gh isv date itype alt colat elong
  (v.1, v.2.1, v.2.2, Real.sqrt (v.1 * v.1 + v.2.1 * v.2.1 + v.2.2 * v.2.2))

/-- igrf12syn (IGRF12.py lines 519-702), with the coefficient table gh (the
parsed contents of igrf12coeffs.txt) as a parameter: the sentinel
(0, 0, 0, 1) is returned when the date lies outside [1900, 2025], otherwise
the main synthesis runs. -/
def igrf12syn (gh : ℕ → ℝ) (isv : ℕ) (date : ℝ) (itype : ℕ)
    (alt colat elong : ℝ) : ℝ × ℝ × ℝ × ℝ :=
  if date < 1900 ∨ 2025 < date then (0, 0, 0, 1)
  else igrfMain gh isv date itype alt colat elong

/-- igrf12syn instrumented with the number of coefficient-table builds the
call performs: line 561 of IGRF12.py executes gh = loadCoeffs(...)
unconditionally at the top of every invocation, before the epoch-range check,
so every call loads the table exactly once. -/
def igrf12synCounted (table : ℕ → ℝ) (isv : ℕ) (date : ℝ) (itype : ℕ)
    (alt colat elong : ℝ) : (ℝ × ℝ × ℝ × ℝ) × ℕ :=
  let gh := table
  let loads := 1
  (if date < 1900 ∨ 2025 < date then (0, 0, 0, 1)
   else igrfMain gh isv date itype alt colat elong, loads)

/-- The tracing variables of apex.py itrace / findApex: current point Y,
previous point YOLD, the three candidate apex points YAPX[I][0..2] and the
4-point derivative history YP[I][0..3] (Python lists as total functions,
first index the cartesian coordinate). -/
structure TraceVars where
  Y : ℕ → ℝ
  YOLD : ℕ → ℝ
  YAPX : ℕ → ℕ → ℝ
  YP : ℕ → ℕ → ℝ

/-- Geocentric radius of column j of YAPX, as computed at apex.py lines
86-87: sqrt of the sum of the squared cartesian components. -/
def yapxRadius (v : TraceVars) (j : ℕ) : ℝ :=
  Real.sqrt (v.YAPX 0 j ^ 2 + v.YAPX 1 j ^ 2 + v.YAPX 2 j ^ 2)

/-- apex.py itrace (lines 11-103): one integration step of the field-line
trace, returning the updated tracing variables and the arrival flag. The
Python per-coordinate for-loops are written componentwise; sequential array
writes are resolved to their values so that every right-hand side reads the
pre-step arrays exactly as the source does. -/
def itrace (v : TraceVars) (BX BY BZ BB SGN DS : ℝ) (NSTP : ℕ) :
    TraceVars × Bool :=
  let B : ℕ → ℝ := fun I => if I = 0 then BX else if I = 1 then BY else BZ
  let v := { v with YP := fun I J => if J = 3 then SGN * B I / BB else v.YP I J }
  let D2 := DS / 2
  let D6 := DS / 6
  let D12 := DS / 12
  let D24 := DS / 24
  if NSTP ≤ 7 then
    let w :=
      if NSTP = 1 then
        { v with
          YP := fun I J => if J = 0 then v.YP I 3 else v.YP I J,
          YOLD := v.Y,
          YAPX := fun I J => if J = 0 then v.Y I else v.YAPX I J,
          Y := fun I => v.Y I + DS * v.YP I 3 }
      else if NSTP = 2 then
        { v with
          YP := fun I J => if J = 1 then v.YP I 3 else v.YP I J,
          Y := fun I => v.YOLD I + D2 * (v.YP I 3 + v.YP I 0) }
      else if NSTP = 3 then
        { v with
          Y := fun I => v.YOLD I + D6 * (2 * v.YP I 3 + v.YP I 1 + 3 * v.YP I 0) }
      else if NSTP = 4 then
        { v with
          YP := fun I J => if J = 1 then v.YP I 3 else v.YP I J,
          YAPX := fun I J => if J = 1 then v.Y I else v.YAPX I J,
          YOLD := v.Y,
          Y := fun I => v.Y I + D2 * (3 * v.YP I 3 - v.YP I 0) }
      else if NSTP = 5 then
        { v with
          Y := fun I => v.YOLD I + D12 * (5 * v.YP I 3 + 8 * v.YP I 1 - v.YP I 0) }
      else if NSTP = 6 then
        { v with
          YP := fun I J => if J = 2 then v.YP I 3 else v.YP I J,
          YOLD := v.Y,
          YAPX := fun I J => if J = 2 then v.Y I else v.YAPX I J,
          Y := fun I => v.Y I + D12 * (23 * v.YP I 3 - 16 * v.YP I 1 + 5 * v.YP I 0) }
      else if NSTP = 7 then
        let Ynew := fun I =>
          v.YOLD I + D24 * (9 * v.YP I 3 + 19 * v.YP I 2 - 5 * v.YP I 1 + v.YP I 0)
        { v with
          YAPX := fun I J => if J = 0 then v.YAPX I 1
            else if J = 1 then v.YAPX I 2
            else if J = 2 then Ynew I else v.YAPX I J,
          Y := Ynew }
      else v
    if NSTP = 6 ∨ NSTP = 7 then
      (w, decide (yapxRadius w 2 < yapxRadius w 1))
    else (w, false)
  else
    let Ynew := fun I =>
      v.Y I + D24 * (55 * v.YP I 3 - 59 * v.YP I 2 + 37 * v.YP I 1 - 9 * v.YP I 0)
    let w :=
      { v with
        YAPX := fun I J => if J = 0 then v.YAPX I 1
          else if J = 1 then v.Y I
          else if J = 2 then Ynew I else v.YAPX I J,
        YOLD := v.Y,
        Y := Ynew,
        YP := fun I J => if J ≤ 2 then v.YP I (J + 1) else v.YP I J }
    (w, decide (Real.sqrt (w.Y 0 ^ 2 + w.Y 1 ^ 2 + w.Y 2 ^ 2) <
      Real.sqrt (w.YOLD 0 ^ 2 + w.YOLD 1 ^ 2 + w.YOLD 2 ^ 2)))

/-- The per-trace context of apex.py findApex fixed before the loop: the
coefficient table, the epoch, the pole direction terms ctp, stp, nlon used
for the step length, and the trace direction sign fixed from the launch
field. -/
structure ApexCtx where
  gh : ℕ → ℝ
  date : ℝ
  ctp : ℝ
  stp : ℝ
  nlon : ℝ
  sgn : ℝ

/-- The mutable loop state of findApex: current geocentric position, tracing
variables, step counter, arrival flag and the accumulated path. -/
structure ApexState where
  gclat : ℝ
  gclon : ℝ
  gcrho : ℝ
  vars : TraceVars
  step : ℕ
  arrive : Bool
  trace : List (ℝ × ℝ × ℝ)

/-- One iteration of the findApex while-loop (apex.py lines 148-158):
adaptive step length, field evaluation, local-to-cartesian rotation, itrace,
counter increment, conversion of the new point back to geocentric
coordinates, and appending the new point to the path. -/
def stepBody (c : ApexCtx) (s : ApexState) : ApexState :=
  let stngml := c.ctp * Real.sin s.gclat +
    c.stp * Real.cos s.gclat * Real.cos (s.gclon - c.nlon)
  let cgml2 := max (1 - stngml ^ 2) 0.25
  let DS := s.gcrho * 0.06 / cgml2 - 370
  let b := igrf12syn c.gh 0 c.date 2 s.gcrho (s.gclat * FACT) (s.gclon * FACT)
  let rB := rotateVector (b.1, b.2.1, b.2.2.1) s.gclon s.gclat
  let r := itrace s.vars rB.1 rB.2.1 rB.2.2 b.2.2.2 c.sgn DS s.step
  { gclat := (cartesian2geocentric (r.1.Y 0) (r.1.Y 1) (r.1.Y 2)).1,
    gclon := (cartesian2geocentric (r.1.Y 0) (r.1.Y 1) (r.1.Y 2)).2.1,
    gcrho := (cartesian2geocentric (r.1.Y 0) (r.1.Y 1) (r.1.Y 2)).2.2,
    vars := r.1, step := s.step + 1, arrive := r.2,
    trace := s.trace ++ [(r.1.Y 0, r.1.Y 1, r.1.Y 2)] }

/-- The findApex while-loop: `while not arrive and step < 100`, returning the
accumulated path on exit (apex.py lines 147-159). -/
def findApexLoop (c : ApexCtx) (s : ApexState) : List (ℝ × ℝ × ℝ) :=
  if _h : s.arrive = false ∧ s.step < 100 then findApexLoop c (stepBody c s)
  else s.trace
termination_by 100 - s.step
decreasing_by
  have hs : (stepBody c s).step = s.step + 1 := rfl
  omega

/-- The cartesian launch position of findApex (apex.py lines 132-134). -/
def launchPoint (lat lon alt : ℝ) : ℝ × ℝ × ℝ :=
  let gg := geodetic2geocentric (Real.pi / 2 - lat / FACT) alt
  geocentric2cartesian (Real.pi / 2 - gg.1) (lon / FACT) gg.2.2

/-- The fixed context built by findApex before its loop (apex.py lines
127-137); the degree-1 coefficients feeding northPole are parameters since
the getCoeffs lookup module is not among the sources. -/
def apexCtx (gh : ℕ → ℝ) (g10 g11 h11 lat lon alt date : ℝ) : ApexCtx :=
  let np := northPole g10 g11 h11
  let nlat := np.1 / FACT
  let nlon := np.2 / FACT
  let gg := geodetic2geocentric (Real.pi / 2 - lat / FACT) alt
  let gclat := Real.pi / 2 - gg.1
  let gclon := lon / FACT
  let gcrho := gg.2.2
  let b := igrf12syn gh 0 date 2 gcrho (gclat * FACT) (gclon * FACT)
  { gh := gh, date := date,
    ctp := Real.cos (Real.pi / 2 - nlat), stp := Real.sin (Real.pi / 2 - nlat),
    nlon := nlon, sgn := -Real.sign b.2.2.1 }

/-- The initial loop state of findApex (apex.py lines 138-146): position at
the launch point, zeroed histories, step counter 0, arrive False and the
path seeded with the launch point. -/
def apexState0 (lat lon alt : ℝ) : ApexState :=
  let gg := geodetic2geocentric (Real.pi / 2 - lat / FACT) alt
  let gclat := Real.pi / 2 - gg.1
  let gclon := lon / FACT
  let gcrho := gg.2.2
  let p0 := geocentric2cartesian gclat gclon gcrho
  { gclat := gclat, gclon := gclon, gcrho := gcrho,
    vars := { Y := fun i => if i = 0 then p0.1 else if i = 1 then p0.2.1
                else if i = 2 then p0.2.2 else 0,
              YOLD := fun _ => 0, YAPX := fun _ _ => 0, YP := fun _ _ => 0 },
    step := 0, arrive := false, trace := [p0] }

/-- apex.py findApex (lines 118-159). -/
def findApex (gh : ℕ → ℝ) (g10 g11 h11 lat lon alt date : ℝ) :
    List (ℝ × ℝ × ℝ) :=
  findApexLoop (apexCtx gh g10 g11 h11 lat lon alt date) (apexState0 lat lon alt)

/-- All-zero tracing variables, for concrete loop states. -/
def tvZero : TraceVars :=
  { Y := fun _ => 0, YOLD := fun _ => 0, YAPX := fun _ _ => 0, YP := fun _ _ => 0 }

/-- A concrete trace context (zero table, epoch 2005). -/
def apexCtx0 : ApexCtx :=
  { gh := fun _ => 0, date := 2005, ctp := 0, stp := 0, nlon := 0, sgn := 0 }

/-- A concrete loop state that has exhausted the 100-step cap without
arriving. -/
def capState : ApexState :=
  { gclat := 0, gclon := 0, gcrho := 0, vars := tvZero,
    step := 100, arrive := false, trace := [(0, 0, 0)] }

/-- A concrete loop state that has arrived (converged) with the same path. -/
def convState : ApexState :=
  { gclat := 0, gclon := 0, gcrho := 0, vars := tvZero,
    step := 3, arrive := true, trace := [(0, 0, 0)] }

/-- In-range dates take the main branch of igrf12syn (shared helper). -/
theorem igrf12syn_in_range (gh : ℕ → ℝ) (isv : ℕ) (date : ℝ) (itype : ℕ)
    (alt colat elong : ℝ) (h1 : 1900 ≤ date) (h2 : date ≤ 2025) :
    igrf12syn gh isv date itype alt colat elong =
      igrfMain gh isv date itype alt colat elong := by
  rw [igrf12syn, if_neg]
  push_neg
  exact ⟨h1, h2⟩

/-- C3: For every input with epoch < 1900.0 or epoch > 2025.0, in both modes
and for any coordinate system, altitude, colatitude and longitude, igrf12syn
returns the sentinel x = y = z = 0 with f = 1.0; for 1900.0 <= epoch <= 2025.0
the error branch is never taken and the field value of the main branch is
computed. -/
theorem igrf12syn_epoch_sentinel (gh : ℕ → ℝ) (isv : ℕ) (date : ℝ) (itype : ℕ)
    (alt colat elong : ℝ) :
    ((date < 1900 ∨ 2025 < date) →
      igrf12syn gh isv date itype alt colat elong = (0, 0, 0, 1)) ∧
    (1900 ≤ date → date ≤ 2025 →
      igrf12syn gh isv date itype alt colat elong =
        igrfMain gh isv date itype alt colat elong) := by
  constructor
  · intro h
    rw [igrf12syn, if_pos h]
  · intro h1 h2
    exact igrf12syn_in_range gh isv date itype alt colat elong h1 h2

/-- C3 witness: at date = 1899 the sentinel (0, 0, 0, 1) is returned. -/
theorem igrf12syn_epoch_sentinel_witness :
    igrf12syn (fun _ => 0) 0 1899 2 6371.2 0 0 = (0, 0, 0, 1) :=
  (igrf12syn_epoch_sentinel (fun _ => 0) 0 1899 2 6371.2 0 0).1
    (Or.inl (by norm_num))

/-- C5: For every igrf12syn call with epoch in [1900.0, 2025.0], the returned
total intensity f equals the Euclidean norm of the three returned,
frame-restored components exactly, in both modes. -/
theorem igrf12syn_f_euclidean_norm (gh : ℕ → ℝ) (isv : ℕ) (date : ℝ) (itype : ℕ)
    (alt colat elong : ℝ) (h1 : 1900 ≤ date) (h2 : date ≤ 2025) :
    (igrf12syn gh isv date itype alt colat elong).2.2.2 =
      Real.sqrt ((igrf12syn gh isv date itype alt colat elong).1 ^ 2 +
        (igrf12syn gh isv date itype alt colat elong).2.1 ^ 2 +
        (igrf12syn gh isv date itype alt colat elong).2.2.1 ^ 2) := by
  rw [igrf12syn_in_range gh isv date itype alt colat elong h1 h2]
  have h : (igrfMain gh isv date itype alt colat elong).2.2.2 =
      Real.sqrt ((igrfMain gh isv date itype alt colat elong).1 *
        (igrfMain gh isv date itype alt colat elong).1 +
        (igrfMain gh isv date itype alt colat elong).2.1 *
        (igrfMain gh isv date itype alt colat elong).2.1 +
        (igrfMain gh isv date itype alt colat elong).2.2.1 *
        (igrfMain gh isv date itype alt colat elong).2.2.1) := rfl
  rw [h]
  congr 1
  ring

/-- C5 witness: the norm identity at the concrete call with date = 2005. -/
theorem igrf12syn_f_euclidean_norm_witness :
    (igrf12syn (fun _ => 0) 0 2005 2 6371.2 0 0).2.2.2 =
      Real.sqrt ((igrf12syn (fun _ => 0) 0 2005 2 6371.2 0 0).1 ^ 2 +
        (igrf12syn (fun _ => 0) 0 2005 2 6371.2 0 0).2.1 ^ 2 +
        (igrf12syn (fun _ => 0) 0 2005 2 6371.2 0 0).2.2.1 ^ 2) :=
  igrf12syn_f_euclidean_norm (fun _ => 0) 0 2005 2 6371.2 0 0
    (by norm_num) (by norm_num)

/-- C7: in the harmonic recurrence the east-component accumulator update
divides by st = sin(colatitude) only when st is nonzero; when st = 0 the
closed-form limit multiplying by ct = cos(colatitude) is used instead, so the
division branch is only reached with a nonzero divisor. -/
theorem yAccum_division_guard (y st ct one two clm slm fm pk qk : ℝ) :
    (st = 0 → yAccum y st ct one two clm slm fm pk qk =
      y + (one * slm - two * clm) * qk * ct) ∧
    (st ≠ 0 → yAccum y st ct one two clm slm fm pk qk =
      y + (one * slm - two * clm) * fm * pk / st) := by
  constructor <;> intro h <;> simp [yAccum, h]

/-- C7 witness: the st = 0 branch at concrete inputs uses the ct form. -/
theorem yAccum_division_guard_witness :
    yAccum 0 0 1 1 1 1 1 1 1 1 = 0 + (1 * 1 - 1 * 1) * 1 * 1 :=
  (yAccum_division_guard 0 0 1 1 1 1 1 1 1 1).1 rfl

/-- C8 counterexample: a concrete igrf12syn invocation (date = 1899) builds
the coefficient table once during that call - the load at line 561 runs
unconditionally on every invocation, so the number of builds per call is 1,
not 0 as a build-once-at-initialization design requires. -/
theorem igrf12syn_rebuild_counterexample :
    (igrf12synCounted (fun _ => 0) 0 1899 2 6371.2 0 0).2 = 1 ∧ (1 : ℕ) ≠ 0 :=
  ⟨rfl, by decide⟩

/-- C8 amended: every igrf12syn invocation rebuilds the coefficient table
exactly once (the loadCoeffs call at the top of the body, executed before the
epoch-range check), and the loaded table is thereafter only read: the
instrumented call returns the same field value as igrf12syn. -/
theorem igrf12synCounted_one_load_per_call (table : ℕ → ℝ) (isv : ℕ) (date : ℝ)
    (itype : ℕ) (alt colat elong : ℝ) :
    (igrf12synCounted table isv date itype alt colat elong).2 = 1 ∧
    (igrf12synCounted table isv date itype alt colat elong).1 =
      igrf12syn table isv date itype alt colat elong :=
  ⟨rfl, rfl⟩

/-- Each loop iteration increments the step counter (shared helper). -/
theorem stepBody_step (c : ApexCtx) (s : ApexState) :
    (stepBody c s).step = s.step + 1 := rfl

/-- Each loop iteration appends exactly one point to the path (shared
helper). -/
theorem stepBody_trace (c : ApexCtx) (s : ApexState) :
    (stepBody c s).trace = s.trace ++
      [((stepBody c s).vars.Y 0, (stepBody c s).vars.Y 1, (stepBody c s).vars.Y 2)] :=
  rfl

/-- The loop appends at most 100 - step further points (shared helper). -/
theorem findApexLoop_length (fuel : ℕ) :
    ∀ (c : ApexCtx) (s : ApexState), 100 - s.step ≤ fuel →
      (findApexLoop c s).length ≤ s.trace.length + (100 - s.step) := by
  induction fuel with
  | zero =>
    intro c s h
    rw [findApexLoop, dif_neg]
    · exact Nat.le_add_right _ _
    · rintro ⟨_, hlt⟩
      omega
  | succ n ih =>
    intro c s h
    rw [findApexLoop]
    split
    · rename_i hg
      have hstep : (stepBody c s).step = s.step + 1 := rfl
      have hfuel : 100 - (stepBody c s).step ≤ n := by omega
      have htr := ih c (stepBody c s) hfuel
      have hlen : (stepBody c s).trace.length = s.trace.length + 1 := by
        rw [stepBody_trace]
        simp
      omega
    · exact Nat.le_add_right _ _

/-- The path so far is a prefix of the loop's result (shared helper). -/
theorem findApexLoop_prefix (fuel : ℕ) :
    ∀ (c : ApexCtx) (s : ApexState), 100 - s.step ≤ fuel →
      s.trace <+: findApexLoop c s := by
  induction fuel with
  | zero =>
    intro c s h
    rw [findApexLoop, dif_neg]
    · rintro ⟨_, hlt⟩
      omega
  | succ n ih =>
    intro c s h
    rw [findApexLoop]
    split
    · rename_i hg
      have hstep : (stepBody c s).step = s.step + 1 := rfl
      have hfuel : 100 - (stepBody c s).step ≤ n := by omega
      refine List.IsPrefix.trans ?_ (ih c (stepBody c s) hfuel)
      rw [stepBody_trace]
      exact List.prefix_append _ _
    · exact List.prefix_rfl

/-- With the counter at 0, itrace matches none of the bootstrap branches:
the position is unchanged and the arrival flag is false (shared helper). -/
theorem itrace_at_zero (v : TraceVars) (BX BY BZ BB SGN DS : ℝ) :
    (itrace v BX BY BZ BB SGN DS 0).1.Y = v.Y ∧
    (itrace v BX BY BZ BB SGN DS 0).2 = false := by
  constructor <;> simp [itrace]

/-- A loop iteration entered with the counter at 0 leaves the position
unchanged (shared helper). -/
theorem stepBody_Y_at_step_zero (c : ApexCtx) (s : ApexState) (hs : s.step = 0) :
    (stepBody c s).vars.Y = s.vars.Y := by
  simp only [stepBody, hs]
  exact (itrace_at_zero s.vars _ _ _ _ _ _).1

/-- C10: For every input vector [north, east, down] and all angles alpha and
beta, the rotation matrix applied by rotateVector is orthogonal, so the
Euclidean norm of the returned cartesian vector equals the Euclidean norm of
the input vector. -/
theorem rotateVector_preserves_norm (n e d alpha beta : ℝ) :
    Real.sqrt ((rotateVector (n, e, d) alpha beta).1 ^ 2 +
      (rotateVector (n, e, d) alpha beta).2.1 ^ 2 +
      (rotateVector (n, e, d) alpha beta).2.2 ^ 2) =
    Real.sqrt (n ^ 2 + e ^ 2 + d ^ 2) := by
  have h1 : Real.sin alpha ^ 2 + Real.cos alpha ^ 2 = 1 := Real.sin_sq_add_cos_sq alpha
  have h2 : Real.sin beta ^ 2 + Real.cos beta ^ 2 = 1 := Real.sin_sq_add_cos_sq beta
  have hsq : (rotateVector (n, e, d) alpha beta).1 ^ 2 +
      (rotateVector (n, e, d) alpha beta).2.1 ^ 2 +
      (rotateVector (n, e, d) alpha beta).2.2 ^ 2 = n ^ 2 + e ^ 2 + d ^ 2 := by
    simp only [rotateVector]
    linear_combination (n ^ 2 * Real.sin beta ^ 2 + e ^ 2 + d ^ 2 * Real.cos beta ^ 2 +
      2 * n * d * Real.cos beta * Real.sin beta) * h1 + (n ^ 2 + d ^ 2) * h2
  rw [hsq]

/-- C4 counterexample: at the concrete degree-1 coefficients g10 = 0, g11 = 1,
h11 = 0, the value returned by northPole differs from the pair the claim
prescribes (the returned longitude is atan2-in-degrees minus 180, not
atan2-in-degrees). -/
theorem northPole_ne_claimed_at_0_1_0 :
    northPole 0 1 0 ≠ northPoleClaimed 0 1 0 := by
  intro h
  have h2 : (northPole 0 1 0).2 = (northPoleClaimed 0 1 0).2 := congrArg Prod.snd h
  have ha : arctan2 0 1 = 0 := by
    simp [arctan2, Real.arctan_zero]
  simp only [northPole, northPoleClaimed, ha] at h2
  norm_num at h2

/-- C4 amended: northPole returns (colatitude_deg - 90, atan2_deg - 180) where
colatitude = arccos(g10 / sqrt(g10^2 + g11^2 + h11^2)); the returned latitude
is the negation of the 90-minus-colatitude value the claim states, and the
returned longitude is shifted by -180 degrees from atan2(h11, g11); it is a
pure function of the degree-1 coefficients. -/
theorem northPole_formula (g10 g11 h11 : ℝ) :
    (northPole g10 g11 h11).1 = -((northPoleClaimed g10 g11 h11).1) ∧
    (northPole g10 g11 h11).2 = FACT * arctan2 h11 g11 - 180 ∧
    northPole g10 g11 h11 =
      (FACT * Real.arccos (g10 / Real.sqrt (g10 ^ 2 + g11 ^ 2 + h11 ^ 2)) - 90,
       FACT * arctan2 h11 g11 - 180) := by
  refine ⟨?_, ?_, ?_⟩
  · simp only [northPole, northPoleClaimed]; ring
  · simp only [northPole]; ring
  · simp only [northPole, Prod.mk.injEq]; constructor <;> ring

/-- C1: at the failing input date = 1903.0 (field mode), the epoch-resolution
block of igrf12syn produces interpolation weight t = 0, tc = 1 and the
fractional table offset ll = 72, instead of the fractional position t = 3/5
within the 1900-1905 bracket and the lower-snapshot offset 0 that linear
interpolation of the bracketing snapshots requires: the port dropped the
integer truncation, so no interpolation happens at non-multiple-of-5 epochs. -/
theorem epochResolve_1903_no_interpolation :
    (epochResolve 0 1903).t = 0 ∧ (epochResolve 0 1903).tc = 1 ∧
    (epochResolve 0 1903).ll = 72 ∧
    specInterpWeight 1903 = 3 / 5 ∧ specLowerOffset 1903 = 0 ∧
    (epochResolve 0 1903).t ≠ specInterpWeight 1903 ∧
    (epochResolve 0 1903).ll ≠ specLowerOffset 1903 := by
  have hfloor : ⌊((1903 : ℝ) - 1900) / 5⌋ = 0 := by
    rw [Int.floor_eq_zero_iff]
    constructor <;> norm_num
  have hres : epochResolve 0 1903 = ⟨0, 1, 72, 10, 120, 66⟩ := by
    rw [epochResolve]
    norm_num
  rw [hres]
  refine ⟨rfl, rfl, rfl, ?_, ?_, ?_, ?_⟩
  · rw [specInterpWeight, hfloor]; norm_num
  · rw [specLowerOffset, hfloor]; norm_num
  · rw [specInterpWeight, hfloor]; norm_num
  · rw [specLowerOffset, hfloor]; norm_num

/-- C2 counterexample: a loop state that has exhausted the 100-step cap
without a radius decrease returns the bare truncated path [(0,0,0)], and this
return value is identical to the one produced from a converged (arrived)
state with the same path: there is no distinguished TraceDidNotConverge
outcome, the truncated path is presented exactly as a successful trace. -/
theorem findApex_cap_counterexample :
    findApexLoop apexCtx0 capState = [(0, 0, 0)] ∧
    findApexLoop apexCtx0 convState = [(0, 0, 0)] ∧
    findApexLoop apexCtx0 capState = findApexLoop apexCtx0 convState := by
  have h1 : findApexLoop apexCtx0 capState = [(0, 0, 0)] := by
    rw [findApexLoop, dif_neg]
    · rfl
    · rintro ⟨_, hlt⟩
      simp [capState] at hlt
  have h2 : findApexLoop apexCtx0 convState = [(0, 0, 0)] := by
    rw [findApexLoop, dif_neg]
    · rfl
    · rintro ⟨ha, _⟩
      simp [convState] at ha
  exact ⟨h1, h2, h1.trans h2.symm⟩

/-- C2 amended: findApex performs at most 100 integration steps (the returned
path holds the launch point plus at most 100 appended points), and on loop
exit - whether because the arrival flag was set or because the 100-step cap
was reached - the accumulated path is returned as a plain list, with no
distinguished non-convergence outcome. -/
theorem findApex_step_cap (gh : ℕ → ℝ) (g10 g11 h11 lat lon alt date : ℝ) :
    (findApex gh g10 g11 h11 lat lon alt date).length ≤ 101 ∧
    (∀ (c : ApexCtx) (s : ApexState), s.arrive = true ∨ 100 ≤ s.step →
      findApexLoop c s = s.trace) := by
  constructor
  · have h := findApexLoop_length 100 (apexCtx gh g10 g11 h11 lat lon alt date)
      (apexState0 lat lon alt) (by norm_num)
    have hlen : (apexState0 lat lon alt).trace.length = 1 := rfl
    have hstep : (apexState0 lat lon alt).step = 0 := rfl
    rw [findApex]
    omega
  · intro c s h
    rw [findApexLoop, dif_neg]
    rintro ⟨ha, hlt⟩
    rcases h with h | h
    · rw [h] at ha
      exact Bool.true_eq_false.mp ha
    · omega

/-- C2 witness: at the cap-exhausted state the loop returns the plain path. -/
theorem findApex_step_cap_witness :
    findApexLoop apexCtx0 capState = capState.trace :=
  (findApex_step_cap (fun _ => 0) 0 0 0 0 0 0 2005).2 apexCtx0 capState
    (Or.inr (by norm_num [capState]))

/-- C6: during bootstrapping (counter values 1 through 7) itrace signals
arrival exactly when the counter is 6 or 7 and the geocentric radius of the
most recently completed bootstrap point (YAPX column 2 after the update) is
smaller than the radius of the point before it (YAPX column 1); at counters
1 through 5 no apex check occurs and the step never signals arrival. -/
theorem itrace_bootstrap_check (v : TraceVars) (BX BY BZ BB SGN DS : ℝ)
    (NSTP : ℕ) (h1 : 1 ≤ NSTP) (h2 : NSTP ≤ 7) :
    (itrace v BX BY BZ BB SGN DS NSTP).2 = true ↔
      ((NSTP = 6 ∨ NSTP = 7) ∧
        yapxRadius (itrace v BX BY BZ BB SGN DS NSTP).1 2 <
          yapxRadius (itrace v BX BY BZ BB SGN DS NSTP).1 1) := by
  interval_cases NSTP <;> simp [itrace]

/-- C6 witness: the check at counter 6 on the all-zero state. -/
theorem itrace_bootstrap_check_witness :
    (itrace tvZero 0 0 0 1 0 0 6).2 = true ↔
      ((6 = 6 ∨ 6 = 7) ∧
        yapxRadius (itrace tvZero 0 0 0 1 0 0 6).1 2 <
          yapxRadius (itrace tvZero 0 0 0 1 0 0 6).1 1) :=
  itrace_bootstrap_check tvZero 0 0 0 1 0 0 6 (by norm_num) (by norm_num)

/-- C9: on the first loop iteration of every findApex call, the counter
passed to itrace is 0, which matches no bootstrap branch, so that call leaves
the position unchanged and does not signal arrival; consequently the returned
path always begins with two identical entries equal to the launch position
(and every later iteration receives counter = iteration index minus one, so
the bootstrap branches 1 through 7 run on the 2nd through 8th iterations). -/
theorem findApex_first_two_entries (gh : ℕ → ℝ)
    (g10 g11 h11 lat lon alt date : ℝ) (v : TraceVars) (BX BY BZ BB SGN DS : ℝ) :
    (itrace v BX BY BZ BB SGN DS 0).1.Y = v.Y ∧
    (itrace v BX BY BZ BB SGN DS 0).2 = false ∧
    (findApex gh g10 g11 h11 lat lon alt date).take 2 =
      [launchPoint lat lon alt, launchPoint lat lon alt] := by
  refine ⟨(itrace_at_zero v BX BY BZ BB SGN DS).1,
    (itrace_at_zero v BX BY BZ BB SGN DS).2, ?_⟩
  have hguard : (apexState0 lat lon alt).arrive = false ∧
      (apexState0 lat lon alt).step < 100 :=
    ⟨rfl, by show (0 : ℕ) < 100; norm_num⟩
  rw [findApex, findApexLoop, dif_pos hguard]
  set c := apexCtx gh g10 g11 h11 lat lon alt date
  set s0 := apexState0 lat lon alt
  have htr : (stepBody c s0).trace =
      [launchPoint lat lon alt, launchPoint lat lon alt] := by
    rw [stepBody_trace, stepBody_Y_at_step_zero c s0 rfl]
    rfl
  have hpre : (stepBody c s0).trace <+: findApexLoop c (stepBody c s0) :=
    findApexLoop_prefix 100 c (stepBody c s0) (by norm_num)
  rw [htr] at hpre
  have := List.prefix_iff_eq_take.mp hpre
  exact this.symm

end
